import Mathlib

/-!
Verification development for the cicd-demo deployment scripts.

The repository ships three shell scripts that move code between the
environment branches beta, gamma, prod (with aliases production and main):

  - promote.sh   : merges a source branch into a target branch and pushes;
  - rollback.sh  : reverts the last COMMITS revisions on an environment
                   branch, pushes, and runs deploy.sh;
  - deploy.sh    : deploys the frontend to Vercel and the backend to Render
                   based on the current branch.

Each script is embedded below as a pure function from the invocation
arguments and a state record (capturing the repository, the interactive
replies, and the success or failure of the external commands) to a result
record holding the exit code, a label for the exit site taken, and the
ordered trace of git / CLI operations the script issued before exiting.
Every exit site of each script prints a distinct message, so labelling the
exit sites is faithful to the observable behaviour.
-/

namespace CicdDemo

/-- Git and CLI operations issued by promote.sh and rollback.sh, in the
order the scripts run them.  Read-only queries and mutating commands are
distinguished by the predicates below. -/
inductive GitOp where
  /-- git diff-index --quiet HEAD -- (clean working tree check). -/
  | diffIndexQuiet
  /-- git status (printed when the tree is dirty). -/
  | status
  /-- git fetch origin. -/
  | fetch
  /-- git show-ref --verify --quiet refs/heads/b. -/
  | showRef (b : String)
  /-- git checkout -b b origin/b (create the local branch and switch to it). -/
  | checkoutNew (b : String)
  /-- git checkout b. -/
  | checkout (b : String)
  /-- git pull origin b. -/
  | pull (b : String)
  /-- git rev-list origin/t..origin/s --count. -/
  | revListCount (t s : String)
  /-- git log --oneline origin/t..origin/s. -/
  | logRange (t s : String)
  /-- git log --oneline -n k. -/
  | logN (k : Nat)
  /-- git merge s -m "Promote s to t" while t is checked out. -/
  | merge (s t : String)
  /-- git revert HEAD --no-edit. -/
  | revertHead
  /-- git revert HEAD~(k-1)..HEAD --no-edit, as written with COMMITS = k. -/
  | revertRange (k : Nat)
  /-- git push origin b. -/
  | push (b : String)
  /-- git reset --hard (never issued by any script; present so that its
  absence from every trace is expressible). -/
  | resetHard
  /-- git remote get-url origin (used in the final status printout). -/
  | remoteGetUrl
  deriving DecidableEq, Repr

/-- An operation in a script trace: a git operation or an invocation of the
deploy.sh script. -/
inductive Op where
  | git (g : GitOp)
  | deployScript
  deriving DecidableEq, Repr

/-- Operations that talk to the network (fetch, pull, push).  Local queries
such as diff-index, status, show-ref, rev-list and log are not network
calls. -/
def Op.isNetwork : Op → Bool
  | .git .fetch => true
  | .git (.pull _) => true
  | .git (.push _) => true
  | _ => false

/-- Operations that mutate or switch a branch (checkout, branch creation,
pull, merge, revert, push, reset).  Read-only queries leave every branch
untouched. -/
def Op.touchesBranch : Op → Bool
  | .git (.checkoutNew _) => true
  | .git (.checkout _) => true
  | .git (.pull _) => true
  | .git (.merge _ _) => true
  | .git .revertHead => true
  | .git (.revertRange _) => true
  | .git (.push _) => true
  | .git .resetHard => true
  | _ => false

/-- The literal VALID_BRANCHES array of promote.sh. -/
def VALID_BRANCHES : List String := ["beta", "gamma", "prod", "production", "main"]

/-- The literal VALID_ENVIRONMENTS array of rollback.sh (same entries). -/
def VALID_ENVIRONMENTS : List String := ["beta", "gamma", "prod", "production", "main"]

/-- Whether the character list s starts with the character list pat. -/
def matchesAt : List Char → List Char → Bool
  | [], _ => true
  | _ :: _, [] => false
  | p :: ps, c :: cs => p == c && matchesAt ps cs

/-- Whether pat occurs as a contiguous segment of the character list. -/
def hasSegment (pat : List Char) : List Char → Bool
  | [] => pat.isEmpty
  | c :: cs => matchesAt pat (c :: cs) || hasSegment pat cs

/-- The expansion of the whole VALID_BRANCHES array wrapped in spaces, the
left side of the validation test in promote.sh: array entries joined by
single spaces with one leading and one trailing space. -/
def VALID_BRANCHES_JOINED : String := " beta gamma prod production main "

/-- The expansion of the whole VALID_ENVIRONMENTS array wrapped in spaces,
the left side of the validation test in rollback.sh. -/
def VALID_ENVIRONMENTS_JOINED : String := " beta gamma prod production main "

/-- The validation test of promote.sh lines 57 and 63: the fully quoted
regex on the right of the match operator is taken literally, so the test
asks whether the name wrapped in single spaces occurs as a substring of the
space-wrapped join of the array.  This is not membership in the array: a
space-joined run of adjacent entries, such as beta gamma, also matches. -/
def branchMatch (x : String) : Bool :=
  hasSegment (" " ++ x ++ " ").data VALID_BRANCHES_JOINED.data

/-- The validation test of rollback.sh line 57, the same substring test
against the space-wrapped join of VALID_ENVIRONMENTS. -/
def envMatch (x : String) : Bool :=
  hasSegment (" " ++ x ++ " ").data VALID_ENVIRONMENTS_JOINED.data

/-- The shell test [[ $REPLY =~ ^[Yy]$ ]] applied to the one-character
reply read by read -n 1. -/
def isYes (r : String) : Bool := r = "y" || r = "Y"

/-- The show-ref / checkout -b block shared by both scripts: if the branch
is not among the local branches it is created from origin (which also
switches to it). -/
def ensureBranch (localBranches : List String) (b : String) : List Op :=
  if b ∈ localBranches then [.git (.showRef b)]
  else [.git (.showRef b), .git (.checkoutNew b)]

/-- Per-invocation inputs of promote.sh that the script reads from the
repository, the terminal and the external git commands. -/
structure PromoteState where
  /-- Whether git diff-index reports uncommitted changes. -/
  dirty : Bool
  /-- Local branches existing before the run (show-ref succeeds on these). -/
  localBranches : List String
  /-- COMMIT_COUNT, the value of git rev-list origin/TARGET..origin/SOURCE --count. -/
  commitCount : Nat
  /-- REPLY at the zero-commit prompt (Continue anyway?). -/
  zeroReply : String
  /-- REPLY at the final prompt (Are you sure?). -/
  confirmReply : String
  /-- Whether git merge succeeds. -/
  mergeOk : Bool
  /-- Whether git push succeeds. -/
  pushOk : Bool

/-- The distinct exit sites of promote.sh. -/
inductive PromoteOutcome where
  /-- Fewer than two arguments: usage message, exit 1. -/
  | usageError
  /-- SOURCE not in VALID_BRANCHES: exit 1. -/
  | invalidSource
  /-- TARGET not in VALID_BRANCHES: exit 1. -/
  | invalidTarget
  /-- SOURCE equals TARGET: exit 1. -/
  | sameBranch
  /-- Uncommitted changes present: exit 1. -/
  | dirtyTree
  /-- Zero commits to promote and the user declined the prompt: exit 0. -/
  | cancelledZero
  /-- The user declined the final confirmation: exit 0. -/
  | cancelled
  /-- git merge failed: exit 1. -/
  | mergeFailed
  /-- git push failed: exit 1. -/
  | pushFailed
  /-- Promotion complete: exit 0. -/
  | promoted
  deriving DecidableEq, Repr

/-- Result of a promote.sh run: exit site, exit code, and the trace of
operations issued. -/
structure PromoteResult where
  outcome : PromoteOutcome
  exitCode : Nat
  trace : List Op
  deriving DecidableEq, Repr

/-- promote.sh from the point where SOURCE and TARGET are bound, embedding
lines 51 to 193 of the script. -/
def promoteRun (SOURCE TARGET : String) (st : PromoteState) : PromoteResult :=
  if branchMatch SOURCE = false then ⟨.invalidSource, 1, []⟩
  else if branchMatch TARGET = false then ⟨.invalidTarget, 1, []⟩
  else if SOURCE = TARGET then ⟨.sameBranch, 1, []⟩
  else if st.dirty then ⟨.dirtyTree, 1, [.git .diffIndexQuiet, .git .status]⟩
  else
    let pre : List Op :=
      [.git .diffIndexQuiet, .git .fetch]
        ++ ensureBranch st.localBranches SOURCE
        ++ ensureBranch st.localBranches TARGET
        ++ [.git (.checkout SOURCE), .git (.pull SOURCE),
            .git (.revListCount TARGET SOURCE)]
    if st.commitCount = 0 ∧ isYes st.zeroReply = false then
      ⟨.cancelledZero, 0, pre⟩
    else
      let pre2 := pre ++
        (if st.commitCount = 0 then [] else [.git (.logRange TARGET SOURCE)])
      if isYes st.confirmReply = false then ⟨.cancelled, 0, pre2⟩
      else
        let pre3 := pre2 ++
          [.git (.checkout TARGET), .git (.pull TARGET), .git (.merge SOURCE TARGET)]
        if st.mergeOk = false then ⟨.mergeFailed, 1, pre3⟩
        else
          let pre4 := pre3 ++ [.git (.push TARGET)]
          if st.pushOk = false then ⟨.pushFailed, 1, pre4⟩
          else ⟨.promoted, 0, pre4 ++ [.git .remoteGetUrl]⟩

/-- promote.sh including the argument-count check at line 40. -/
def promoteMain (args : List String) (st : PromoteState) : PromoteResult :=
  match args with
  | s :: t :: _ => promoteRun s t st
  | _ => ⟨.usageError, 1, []⟩

/-- The bash test [[ $COMMITS =~ ^[0-9]+$ ]] on the character list of the
argument: nonempty and all decimal digits. -/
def isDigitStr (l : List Char) : Bool := !l.isEmpty && l.all Char.isDigit

/-- Numeric value of a decimal digit string, as the shell arithmetic
comparison [ $COMMITS -lt 1 ] reads it. -/
def natOfDigits (l : List Char) : Nat := l.foldl (fun a c => a * 10 + (c.toNat - 48)) 0

/-- The combined validation of rollback.sh line 64: the argument matches
^[0-9]+$ and its value is at least 1. -/
def commitsOk (s : String) : Bool := isDigitStr s.data && (natOfDigits s.data != 0)

/-- The commit subject of the revert commit git creates for commit c. -/
def revCommit (c : String) : String := "Revert " ++ c

/-- Branch history after successfully reverting the first k entries of a
tip-first history: git creates one revert commit per reverted commit,
newest target first, so the revert of the oldest target ends up at the tip;
the original history stays below the new commits. -/
def revertedHistory (history : List String) (k : Nat) : List String :=
  ((history.take k).map revCommit).reverse ++ history

/-- Per-invocation inputs of rollback.sh. -/
structure RollbackState where
  /-- Whether git diff-index reports uncommitted changes. -/
  dirty : Bool
  /-- Local branches existing before the run. -/
  localBranches : List String
  /-- Tip-first commit history of the environment branch after checkout and
  pull; git rev-parse can resolve HEAD~k exactly when k + 1 is at most the
  length of this list. -/
  history : List String
  /-- REPLY at the confirmation prompt. -/
  confirmReply : String
  /-- Whether the revert hits a merge conflict (given a resolvable range). -/
  revertConflict : Bool
  /-- Whether git push succeeds. -/
  pushOk : Bool
  /-- Whether the deploy.sh invocation exits 0. -/
  deployOk : Bool

/-- The distinct exit sites of rollback.sh. -/
inductive RollbackOutcome where
  /-- No arguments: usage message, exit 1. -/
  | usageError
  /-- ENVIRONMENT not in VALID_ENVIRONMENTS: exit 1. -/
  | invalidEnvironment
  /-- COMMITS not a positive integer: exit 1. -/
  | invalidCount
  /-- Uncommitted changes present: exit 1. -/
  | dirtyTree
  /-- The user declined the confirmation: exit 0. -/
  | cancelled
  /-- git revert failed (unresolvable range or conflict): exit 1. -/
  | revertFailed
  /-- git push failed: exit 1. -/
  | pushFailed
  /-- deploy.sh failed: exit 1. -/
  | deployFailed
  /-- Rollback complete: exit 0. -/
  | rolledBack
  deriving DecidableEq, Repr

/-- Result of a rollback.sh run: exit site, exit code, operation trace, and
the branch history when the script ends (on a conflicted revert the
in-progress state is not modelled further; no settled claim depends on
it). -/
structure RollbackResult where
  outcome : RollbackOutcome
  exitCode : Nat
  trace : List Op
  finalHistory : List String
  deriving DecidableEq, Repr

/-- Continuation of rollback.sh after a successful revert of k commits:
push (line 151), deploy.sh (line 161), final printout. -/
def rollbackFinish (st : RollbackState) (ENVIRONMENT : String) (k : Nat)
    (pre : List Op) : RollbackResult :=
  let h := revertedHistory st.history k
  let t1 := pre ++ [.git (.push ENVIRONMENT)]
  if st.pushOk = false then ⟨.pushFailed, 1, t1, h⟩
  else
    let t2 := t1 ++ [.deployScript]
    if st.deployOk = false then ⟨.deployFailed, 1, t2, h⟩
    else ⟨.rolledBack, 0, t2 ++ [.git .remoteGetUrl], h⟩

/-- rollback.sh, embedding lines 40 to 200.  COMMITS defaults to 1 when the
second argument is absent or empty (the ${2:-1} expansion).  For COMMITS
greater than 1 the script runs git revert HEAD~(COMMITS-1)..HEAD: the range
resolves only when the history has at least COMMITS entries, and when it
does it contains the commits after HEAD~(COMMITS-1), that is the first
COMMITS - 1 entries of the tip-first history. -/
def rollbackMain (args : List String) (st : RollbackState) : RollbackResult :=
  match args with
  | [] => ⟨.usageError, 1, [], st.history⟩
  | ENVIRONMENT :: rest =>
    let COMMITS : String :=
      match rest with
      | [] => "1"
      | c :: _ => if c = "" then "1" else c
    if envMatch ENVIRONMENT = false then ⟨.invalidEnvironment, 1, [], st.history⟩
    else if commitsOk COMMITS = false then ⟨.invalidCount, 1, [], st.history⟩
    else
      let n := natOfDigits COMMITS.data
      if st.dirty then ⟨.dirtyTree, 1, [.git .diffIndexQuiet, .git .status], st.history⟩
      else
        let pre : List Op :=
          [.git .diffIndexQuiet, .git .fetch]
            ++ ensureBranch st.localBranches ENVIRONMENT
            ++ [.git (.checkout ENVIRONMENT), .git (.pull ENVIRONMENT),
                .git (.logN n)]
        if isYes st.confirmReply = false then ⟨.cancelled, 0, pre, st.history⟩
        else
          if n = 1 then
            let t1 := pre ++ [.git .revertHead]
            if st.history.length < 1 ∨ st.revertConflict = true then
              ⟨.revertFailed, 1, t1, st.history⟩
            else rollbackFinish st ENVIRONMENT 1 t1
          else
            let t1 := pre ++ [.git (.revertRange n)]
            if st.history.length < n ∨ st.revertConflict = true then
              ⟨.revertFailed, 1, t1, st.history⟩
            else rollbackFinish st ENVIRONMENT (n - 1) t1

/-- External operations issued by deploy.sh. -/
inductive DeployOp where
  /-- git rev-parse --abbrev-ref HEAD (branch detection). -/
  | revParseBranch
  /-- vercel whoami. -/
  | vercelWhoami
  /-- vercel login. -/
  | vercelLogin
  /-- vercel deploy. -/
  | vercelDeploy
  /-- render services list. -/
  | renderServicesList
  /-- render deploys create. -/
  | renderDeploysCreate
  deriving DecidableEq, Repr

/-- Per-invocation inputs of deploy.sh. -/
structure DeployState where
  /-- Current branch, none when git rev-parse fails or prints nothing. -/
  branch : Option String
  /-- Whether the vercel CLI is on the PATH. -/
  vercelInstalled : Bool
  /-- Whether the render CLI is on the PATH. -/
  renderInstalled : Bool
  /-- Whether VERCEL_TOKEN is set and nonempty. -/
  vercelTokenSet : Bool
  /-- Whether vercel whoami succeeds (already logged in). -/
  vercelLoggedIn : Bool
  /-- Whether an interactive vercel login succeeds. -/
  vercelLoginOk : Bool
  /-- Whether RENDER_API_KEY is set and nonempty. -/
  renderApiKeySet : Bool
  /-- REPLY at the continue-without-Render prompt. -/
  continueReply : String
  /-- URL extracted from the vercel deploy output; empty means the deploy
  produced no URL. -/
  vercelUrl : String
  /-- SERVICE_ID extracted from render services list; empty means the
  service was not found. -/
  renderServiceId : String
  /-- Whether render deploys create succeeds. -/
  renderDeployOk : Bool

/-- The distinct exit sites of deploy.sh. -/
inductive DeployOutcome where
  /-- Branch detection failed: exit 1. -/
  | noBranch
  /-- Vercel CLI missing: exit 1. -/
  | noVercelCli
  /-- Interactive vercel login failed (set -e): exit 1. -/
  | loginFailed
  /-- RENDER_API_KEY missing and the user declined to continue: exit 1. -/
  | abortedNoRenderKey
  /-- vercel deploy produced no URL: exit 1. -/
  | vercelDeployFailed
  /-- render deploys create failed (set -e): nonzero exit. -/
  | renderDeployFailed
  /-- Deployment complete: exit 0. -/
  | completed
  deriving DecidableEq, Repr

/-- Result of a deploy.sh run: exit site, exit code, the final value of the
SKIP_RENDER variable, and the trace of external operations. -/
structure DeployResult where
  outcome : DeployOutcome
  exitCode : Nat
  skipRender : Bool
  trace : List DeployOp
  deriving DecidableEq, Repr

/-- deploy.sh, embedding lines 47 to 257: branch detection, CLI checks
(a missing render CLI sets SKIP_RENDER=true), Vercel authentication,
the continue-without-Render prompt when RENDER_API_KEY is missing (yes
sets SKIP_RENDER=true, anything else exits 1), the Vercel deploy, and the
Render deploy guarded by SKIP_RENDER. -/
def deployRun (st : DeployState) : DeployResult :=
  match st.branch with
  | none => ⟨.noBranch, 1, false, [.revParseBranch]⟩
  | some _ =>
    if st.vercelInstalled = false then ⟨.noVercelCli, 1, false, [.revParseBranch]⟩
    else
      let skip0 : Bool := !st.renderInstalled
      let authTrace : List DeployOp :=
        if st.vercelTokenSet then []
        else if st.vercelLoggedIn then [.vercelWhoami]
        else [.vercelWhoami, .vercelLogin]
      let t0 := [DeployOp.revParseBranch] ++ authTrace
      if st.vercelTokenSet = false ∧ st.vercelLoggedIn = false ∧ st.vercelLoginOk = false then
        ⟨.loginFailed, 1, skip0, t0⟩
      else if skip0 = false ∧ st.renderApiKeySet = false ∧ isYes st.continueReply = false then
        ⟨.abortedNoRenderKey, 1, skip0, t0⟩
      else
        let skip : Bool := skip0 || !st.renderApiKeySet
        let t1 := t0 ++ [DeployOp.vercelDeploy]
        if st.vercelUrl = "" then ⟨.vercelDeployFailed, 1, skip, t1⟩
        else if skip then ⟨.completed, 0, true, t1⟩
        else
          let t2 := t1 ++ [DeployOp.renderServicesList]
          if st.renderServiceId = "" then ⟨.completed, 0, false, t2⟩
          else
            let t3 := t2 ++ [DeployOp.renderDeploysCreate]
            if st.renderDeployOk then ⟨.completed, 0, false, t3⟩
            else ⟨.renderDeployFailed, 1, false, t3⟩

/-! Helper lemmas shared by the claim theorems. -/

/-- Membership in the trace of the show-ref / checkout -b block. -/
@[simp]
theorem mem_ensureBranch {L : List String} {b : String} {x : Op} :
    x ∈ ensureBranch L b ↔
      x = Op.git (.showRef b) ∨ (b ∉ L ∧ x = Op.git (.checkoutNew b)) := by
  unfold ensureBranch
  split <;> rename_i h <;> simp [h]

/-- A COMMITS argument that passes validation is nonempty. -/
theorem commitsOk_ne_empty {c : String} (h : commitsOk c = true) : c ≠ "" := by
  intro hc
  subst hc
  exact absurd h (by decide)

/-- Every name in the VALID_BRANCHES array passes the substring validation
test of promote.sh. -/
theorem mem_valid_branchMatch {b : String} (hb : b ∈ VALID_BRANCHES) :
    branchMatch b = true := by
  simp [VALID_BRANCHES] at hb
  rcases hb with h | h | h | h | h <;> subst h <;> decide

/-- Every name in the VALID_ENVIRONMENTS array passes the substring
validation test of rollback.sh. -/
theorem mem_valid_envMatch {e : String} (he : e ∈ VALID_ENVIRONMENTS) :
    envMatch e = true := by
  simp [VALID_ENVIRONMENTS] at he
  rcases he with h | h | h | h | h <;> subst h <;> decide

/-! Claim theorems. -/

/-- C7 counterexample: the argument beta gamma is not in the registered
environment set, yet it passes the substring validation of promote.sh, so
the run does not fail at a validation site with zero git calls: with a
dirty tree it reaches the dirty-tree check, issues git diff-index and git
status, and exits 1 as a dirty-tree failure, not a validation error. -/
theorem promote_substring_validation_counterexample :
    "beta gamma" ∉ VALID_BRANCHES ∧
    branchMatch "beta gamma" = true ∧
    (promoteRun "beta gamma" "prod" ⟨true, [], 0, "n", "n", true, true⟩).outcome
        = .dirtyTree ∧
    (promoteRun "beta gamma" "prod" ⟨true, [], 0, "n", "n", true, true⟩).exitCode = 1 ∧
    (promoteRun "beta gamma" "prod" ⟨true, [], 0, "n", "n", true, true⟩).trace
        = [.git .diffIndexQuiet, .git .status] := by
  decide

/-- C7 amended: promote.sh validates its names with a bash substring test:
a name passes exactly when the name wrapped in single spaces occurs inside
the space-wrapped join of VALID_BRANCHES.  A request whose source or target
fails that test, or whose source equals target, exits 1 at one of the three
validation sites with an empty operation trace, zero git and deploy calls
included.  The test is weaker than membership in the registered set:
space-joined runs of adjacent registered names, such as beta gamma, pass
validation despite being unregistered, and such runs proceed to git
operations instead of failing as validation errors. -/
theorem promote_validation_rejects_unmatched (s t : String) (st : PromoteState)
    (h : branchMatch s = false ∨ branchMatch t = false ∨ s = t) :
    (promoteRun s t st).exitCode = 1 ∧ (promoteRun s t st).trace = [] ∧
      ((promoteRun s t st).outcome = .invalidSource ∨
       (promoteRun s t st).outcome = .invalidTarget ∨
       (promoteRun s t st).outcome = .sameBranch) := by
  cases hs : branchMatch s
  · simp [promoteRun, hs]
  · cases ht : branchMatch t
    · simp [promoteRun, hs, ht]
    · have hst : s = t := by
        rcases h with h | h | h
        · exact absurd h (by simp [hs])
        · exact absurd h (by simp [ht])
        · exact h
      simp [promoteRun, hs, ht, hst]

/-- C7 amended witness: promoting from the unregistered name stage, which
fails the substring test, exits 1 at a validation site with an empty
trace. -/
theorem promote_validation_rejects_unmatched_witness :
    (promoteRun "stage" "prod" ⟨false, [], 0, "y", "y", true, true⟩).exitCode = 1 ∧
      (promoteRun "stage" "prod" ⟨false, [], 0, "y", "y", true, true⟩).trace = [] ∧
      ((promoteRun "stage" "prod" ⟨false, [], 0, "y", "y", true, true⟩).outcome = .invalidSource ∨
       (promoteRun "stage" "prod" ⟨false, [], 0, "y", "y", true, true⟩).outcome = .invalidTarget ∨
       (promoteRun "stage" "prod" ⟨false, [], 0, "y", "y", true, true⟩).outcome = .sameBranch) :=
  promote_validation_rejects_unmatched "stage" "prod" _ (Or.inl (by decide))

/-- C4: with an uncommitted change in the working tree, both promote.sh
(given arguments that pass its validation) and rollback.sh (likewise) stop
at the dirty-tree check with exit code 1, and every operation issued up to
that point is local and read-only: no network call is made and no branch is
checked out, pulled, merged, reverted, pushed or reset. -/
theorem dirty_tree_short_circuits :
    (∀ s t : String, ∀ st : PromoteState,
      s ∈ VALID_BRANCHES → t ∈ VALID_BRANCHES → s ≠ t → st.dirty = true →
        (promoteRun s t st).outcome = .dirtyTree ∧ (promoteRun s t st).exitCode = 1 ∧
        ∀ op ∈ (promoteRun s t st).trace,
          op.isNetwork = false ∧ op.touchesBranch = false) ∧
    (∀ e c : String, ∀ st : RollbackState,
      e ∈ VALID_ENVIRONMENTS → commitsOk c = true → st.dirty = true →
        (rollbackMain [e, c] st).outcome = .dirtyTree ∧
        (rollbackMain [e, c] st).exitCode = 1 ∧
        ∀ op ∈ (rollbackMain [e, c] st).trace,
          op.isNetwork = false ∧ op.touchesBranch = false) := by
  constructor
  · intro s t st hs ht hst hd
    have hs1 : branchMatch s = true := mem_valid_branchMatch hs
    have ht1 : branchMatch t = true := mem_valid_branchMatch ht
    simp [promoteRun, hs1, ht1, hst, hd, Op.isNetwork, Op.touchesBranch]
  · intro e c st he hc hd
    have he1 : envMatch e = true := mem_valid_envMatch he
    have hne : c ≠ "" := commitsOk_ne_empty hc
    simp [rollbackMain, he1, hc, hd, hne, Op.isNetwork, Op.touchesBranch]

/-- C4 witness: a dirty tree stops a beta-to-gamma promotion and a
one-commit beta rollback before any network or branch operation. -/
theorem dirty_tree_short_circuits_witness :
    ((promoteRun "beta" "gamma" ⟨true, [], 3, "y", "y", true, true⟩).outcome = .dirtyTree ∧
     (promoteRun "beta" "gamma" ⟨true, [], 3, "y", "y", true, true⟩).exitCode = 1 ∧
     ∀ op ∈ (promoteRun "beta" "gamma" ⟨true, [], 3, "y", "y", true, true⟩).trace,
       op.isNetwork = false ∧ op.touchesBranch = false) ∧
    ((rollbackMain ["beta", "1"] ⟨true, [], ["c0"], "y", false, true, true⟩).outcome = .dirtyTree ∧
     (rollbackMain ["beta", "1"] ⟨true, [], ["c0"], "y", false, true, true⟩).exitCode = 1 ∧
     ∀ op ∈ (rollbackMain ["beta", "1"] ⟨true, [], ["c0"], "y", false, true, true⟩).trace,
       op.isNetwork = false ∧ op.touchesBranch = false) :=
  ⟨dirty_tree_short_circuits.1 "beta" "gamma" _ (by decide) (by decide) (by decide) rfl,
   dirty_tree_short_circuits.2 "beta" "1" _ (by decide) (by decide) rfl⟩

/-- C5 counterexample: the upper-case spellings PROD and Beta are rejected
as unknown by promote.sh and rollback.sh (exit 1), so environment names are
not accepted case-insensitively. -/
theorem case_sensitivity_counterexample :
    (promoteRun "PROD" "beta" ⟨false, [], 0, "y", "y", true, true⟩).outcome = .invalidSource ∧
    (promoteRun "PROD" "beta" ⟨false, [], 0, "y", "y", true, true⟩).exitCode = 1 ∧
    (rollbackMain ["Beta"] ⟨false, [], ["c0"], "y", false, true, true⟩).outcome = .invalidEnvironment ∧
    (rollbackMain ["Beta"] ⟨false, [], ["c0"], "y", false, true, true⟩).exitCode = 1 := by
  decide

/-- C5 amended: environment-name arguments are not accepted
case-insensitively: the validation substring test compares characters
exactly, so every registered lower-case name passes while upper- or
mixed-case spellings of registered names, such as PROD, Beta, GAMMA,
Production or Main, fail the test and are rejected as unknown with exit
code 1 before any git call. -/
theorem environment_names_case_sensitive :
    (∀ b ∈ VALID_BRANCHES, branchMatch b = true ∧ envMatch b = true) ∧
    (branchMatch "PROD" = false ∧ branchMatch "Beta" = false ∧
     branchMatch "GAMMA" = false ∧ envMatch "Production" = false ∧
     envMatch "Main" = false) ∧
    (∀ t : String, ∀ st : PromoteState,
       promoteRun "PROD" t st = ⟨.invalidSource, 1, []⟩) ∧
    (∀ rest : List String, ∀ st : RollbackState,
       rollbackMain ("Beta" :: rest) st = ⟨.invalidEnvironment, 1, [], st.history⟩) := by
  refine ⟨?_, by decide, ?_, ?_⟩
  · intro b hb
    simp [VALID_BRANCHES] at hb
    rcases hb with h | h | h | h | h <;> subst h <;> decide
  · intro t st
    simp [promoteRun, (by decide : branchMatch "PROD" = false)]
  · intro rest st
    simp [rollbackMain, (by decide : envMatch "Beta" = false)]

/-- C5 amended witness: beta passes both validation tests, while the
upper-case source PROD makes promote.sh exit 1 before any git call and the
mixed-case Beta does the same for rollback.sh. -/
theorem environment_names_case_sensitive_witness :
    (branchMatch "beta" = true ∧ envMatch "beta" = true) ∧
    promoteRun "PROD" "beta" ⟨false, [], 0, "y", "y", true, true⟩ = ⟨.invalidSource, 1, []⟩ ∧
    rollbackMain ["Beta", "2"] ⟨false, [], ["c0"], "y", false, true, true⟩ =
      ⟨.invalidEnvironment, 1, [], ["c0"]⟩ :=
  ⟨environment_names_case_sensitive.1 "beta" (by decide),
   environment_names_case_sensitive.2.2.1 "beta" _,
   environment_names_case_sensitive.2.2.2 ["2"] _⟩

/-- C1 counterexample: promote.sh accepts no flags at all, so an invocation
with zero pending commits and no opt-in flag is not always rejected: when
the zero-commit prompt and the final prompt are both answered y, the run
with zero pending commits attempts the merge and completes with exit code
0, refuting rejection, the failure outcome, and the absence of a merge. -/
theorem promote_zero_commits_merge_counterexample :
    (promoteRun "beta" "gamma" ⟨false, ["beta", "gamma"], 0, "y", "y", true, true⟩).outcome
        = .promoted ∧
    (promoteRun "beta" "gamma" ⟨false, ["beta", "gamma"], 0, "y", "y", true, true⟩).exitCode
        = 0 ∧
    Op.git (.merge "beta" "gamma") ∈
      (promoteRun "beta" "gamma" ⟨false, ["beta", "gamma"], 0, "y", "y", true, true⟩).trace := by
  decide

/-- C1 amended: when the target already contains every source commit
(COMMIT_COUNT = 0), promote.sh asks Continue anyway; a reply other than y
or Y ends the run with exit code 0 at the cancelledZero site, with no merge
and no push attempted, while a y reply at that prompt and at the final
confirmation leads to the merge being attempted.  The opt-in is this
interactive prompt, not a command-line flag, and the decline path exits 0
rather than with a distinct failure code; fetch, branch setup, checkout and
pull of the source have already run by the time the prompt appears. -/
theorem promote_zero_commits_prompt (s t : String) (st : PromoteState)
    (hs : s ∈ VALID_BRANCHES) (ht : t ∈ VALID_BRANCHES) (hst : s ≠ t)
    (hd : st.dirty = false) (hcc : st.commitCount = 0) :
    (isYes st.zeroReply = false →
      (promoteRun s t st).outcome = .cancelledZero ∧
      (promoteRun s t st).exitCode = 0 ∧
      Op.git (.merge s t) ∉ (promoteRun s t st).trace ∧
      Op.git (.push t) ∉ (promoteRun s t st).trace) ∧
    (isYes st.zeroReply = true → isYes st.confirmReply = true →
      Op.git (.merge s t) ∈ (promoteRun s t st).trace) := by
  have hs1 : branchMatch s = true := mem_valid_branchMatch hs
  have ht1 : branchMatch t = true := mem_valid_branchMatch ht
  constructor
  · intro hz
    simp [promoteRun, hs1, ht1, hst, hd, hcc, hz]
  · intro hz hcf
    cases hm : st.mergeOk <;> cases hp : st.pushOk <;>
      simp [promoteRun, hs1, ht1, hst, hd, hcc, hz, hcf, hm, hp]

/-- C1 amended witness: with zero pending commits between beta and gamma, a
reply of n at the zero-commit prompt ends the run with exit code 0 and no
merge or push in the trace. -/
theorem promote_zero_commits_prompt_witness :
    (promoteRun "beta" "gamma" ⟨false, ["beta", "gamma"], 0, "n", "y", true, true⟩).outcome
        = .cancelledZero ∧
    (promoteRun "beta" "gamma" ⟨false, ["beta", "gamma"], 0, "n", "y", true, true⟩).exitCode
        = 0 ∧
    Op.git (.merge "beta" "gamma") ∉
      (promoteRun "beta" "gamma" ⟨false, ["beta", "gamma"], 0, "n", "y", true, true⟩).trace ∧
    Op.git (.push "gamma") ∉
      (promoteRun "beta" "gamma" ⟨false, ["beta", "gamma"], 0, "n", "y", true, true⟩).trace :=
  (promote_zero_commits_prompt "beta" "gamma" _
    (by decide) (by decide) (by decide) rfl rfl).1 (by decide)

/-- C2 counterexample: on a branch whose history holds two commits, a
rollback of five commits does not fail during the preview: the git log
preview runs without error, the branch has already been checked out and
pulled, and the failure (exit 1) only happens when the revert command
itself is attempted with the unresolvable range HEAD~4..HEAD. -/
theorem rollback_insufficient_history_counterexample :
    (rollbackMain ["beta", "5"] ⟨false, ["beta"], ["c1", "c0"], "y", false, true, true⟩).outcome
        = .revertFailed ∧
    (rollbackMain ["beta", "5"] ⟨false, ["beta"], ["c1", "c0"], "y", false, true, true⟩).exitCode
        = 1 ∧
    Op.git (.logN 5) ∈
      (rollbackMain ["beta", "5"] ⟨false, ["beta"], ["c1", "c0"], "y", false, true, true⟩).trace ∧
    Op.git (.revertRange 5) ∈
      (rollbackMain ["beta", "5"] ⟨false, ["beta"], ["c1", "c0"], "y", false, true, true⟩).trace ∧
    Op.git (.pull "beta") ∈
      (rollbackMain ["beta", "5"] ⟨false, ["beta"], ["c1", "c0"], "y", false, true, true⟩).trace := by
  decide

/-- C2 amended: rollback.sh performs no history-length validation and has
no InsufficientHistory outcome; when the requested count N is at least 2
and exceeds the branch history length, the git log preview lists the
available commits without failing, the branch is fetched, checked out and
pulled, and the run fails with exit code 1 only at the revert step, where
the range HEAD~(N-1)..HEAD cannot be resolved; no revert commit is
created. -/
theorem rollback_excess_count_fails_at_revert (e c : String) (st : RollbackState)
    (he : e ∈ VALID_ENVIRONMENTS) (hc : commitsOk c = true)
    (h2 : 2 ≤ natOfDigits c.data) (hlen : st.history.length < natOfDigits c.data)
    (hd : st.dirty = false) (hy : isYes st.confirmReply = true) :
    (rollbackMain [e, c] st).outcome = .revertFailed ∧
    (rollbackMain [e, c] st).exitCode = 1 ∧
    Op.git (.logN (natOfDigits c.data)) ∈ (rollbackMain [e, c] st).trace ∧
    Op.git (.revertRange (natOfDigits c.data)) ∈ (rollbackMain [e, c] st).trace ∧
    (rollbackMain [e, c] st).finalHistory = st.history := by
  have he1 : envMatch e = true := mem_valid_envMatch he
  have hne : c ≠ "" := commitsOk_ne_empty hc
  have hn1 : natOfDigits c.data ≠ 1 := by omega
  simp [rollbackMain, he1, hc, hd, hne, hy, hn1, hlen]

/-- C2 amended witness: rollback of five commits on a two-commit beta
history fails at the revert step with the preview and pull already done. -/
theorem rollback_excess_count_fails_at_revert_witness :
    (rollbackMain ["beta", "5"] ⟨false, [], ["c1", "c0"], "y", false, true, true⟩).outcome
        = .revertFailed ∧
    (rollbackMain ["beta", "5"] ⟨false, [], ["c1", "c0"], "y", false, true, true⟩).exitCode
        = 1 ∧
    Op.git (.logN (natOfDigits "5".data)) ∈
      (rollbackMain ["beta", "5"] ⟨false, [], ["c1", "c0"], "y", false, true, true⟩).trace ∧
    Op.git (.revertRange (natOfDigits "5".data)) ∈
      (rollbackMain ["beta", "5"] ⟨false, [], ["c1", "c0"], "y", false, true, true⟩).trace ∧
    (rollbackMain ["beta", "5"] ⟨false, [], ["c1", "c0"], "y", false, true, true⟩).finalHistory
        = ["c1", "c0"] :=
  rollback_excess_count_fails_at_revert "beta" "5" _
    (by decide) (by decide) (by decide) (by decide) rfl (by decide)

/-- C3: on a three-commit history, rolling back 2 commits completes but
creates exactly one revert commit, for the tip only: the range written in
the script, HEAD~(COMMITS-1)..HEAD, contains COMMITS-1 commits, so for
every COMMITS greater than 1 the script reverts one commit fewer than
requested, than previewed by its git log -n COMMITS listing, and than its
usage documentation states. -/
theorem rollback_two_commits_reverts_only_tip :
    (rollbackMain ["beta", "2"] ⟨false, ["beta"], ["c2", "c1", "c0"], "y", false, true, true⟩).outcome
        = .rolledBack ∧
    (rollbackMain ["beta", "2"] ⟨false, ["beta"], ["c2", "c1", "c0"], "y", false, true, true⟩).finalHistory
        = ["Revert c2", "c2", "c1", "c0"] ∧
    Op.git (.revertRange 2) ∈
      (rollbackMain ["beta", "2"] ⟨false, ["beta"], ["c2", "c1", "c0"], "y", false, true, true⟩).trace := by
  decide

/-- C6 counterexample: a promotion that reaches a successful push completes
with exit code 0 without ever invoking deploy.sh, so the promote pipeline
does not trigger the deploy step. -/
theorem promote_success_no_deploy_counterexample :
    (promoteRun "beta" "gamma" ⟨false, ["beta", "gamma"], 2, "y", "y", true, true⟩).outcome
        = .promoted ∧
    Op.git (.push "gamma") ∈
      (promoteRun "beta" "gamma" ⟨false, ["beta", "gamma"], 2, "y", "y", true, true⟩).trace ∧
    Op.deployScript ∉
      (promoteRun "beta" "gamma" ⟨false, ["beta", "gamma"], 2, "y", "y", true, true⟩).trace := by
  decide

/-- C6 amended: promote.sh never invokes deploy.sh on any path, successful
push included; after its push it only prints that deployment is triggered
automatically via GitHub Actions.  Only rollback.sh invokes deploy.sh,
which it does after its push succeeds. -/
theorem deploy_trigger_asymmetry :
    (∀ s t : String, ∀ st : PromoteState,
        Op.deployScript ∉ (promoteRun s t st).trace) ∧
    (∀ e : String, ∀ st : RollbackState,
        e ∈ VALID_ENVIRONMENTS → st.dirty = false → isYes st.confirmReply = true →
        1 ≤ st.history.length → st.revertConflict = false → st.pushOk = true →
        Op.deployScript ∈ (rollbackMain [e] st).trace) := by
  constructor
  · intro s t st
    unfold promoteRun
    repeat' split
    all_goals simp
  · intro e st he hd hy hlen hrc hp
    have he1 : envMatch e = true := mem_valid_envMatch he
    have h1 : commitsOk "1" = true := by decide
    have h2 : natOfDigits (String.data "1") = 1 := by decide
    have h3 : ¬ st.history.length < 1 := by omega
    cases hdo : st.deployOk <;>
      simp [rollbackMain, rollbackFinish, he1, hd, hy, h1, h2, h3, hrc, hp, hdo]

/-- C6 amended witness: a successful one-commit rollback on beta invokes
deploy.sh, while the corresponding promotion trace never contains it. -/
theorem deploy_trigger_asymmetry_witness :
    Op.deployScript ∉
      (promoteRun "beta" "gamma" ⟨false, ["beta", "gamma"], 2, "y", "y", true, true⟩).trace ∧
    Op.deployScript ∈
      (rollbackMain ["beta"] ⟨false, ["beta"], ["c1", "c0"], "y", false, true, true⟩).trace :=
  ⟨deploy_trigger_asymmetry.1 "beta" "gamma" _,
   deploy_trigger_asymmetry.2 "beta" _ (by decide) rfl (by decide) (by decide) rfl rfl⟩

/-- C8: the COMMITS argument of rollback.sh defaults to 1 when omitted (an
invocation with only the environment behaves exactly like one with an
explicit second argument of 1), and a supplied value that is not a string
of digits with value at least 1 makes the run exit 1 at a validation site
with an empty operation trace, before any git command runs. -/
theorem rollback_count_validation :
    (∀ e : String, ∀ st : RollbackState,
        rollbackMain [e] st = rollbackMain [e, "1"] st) ∧
    (∀ e c : String, ∀ rest : List String, ∀ st : RollbackState,
        c ≠ "" → commitsOk c = false →
        (rollbackMain (e :: c :: rest) st).exitCode = 1 ∧
        (rollbackMain (e :: c :: rest) st).trace = [] ∧
        ((rollbackMain (e :: c :: rest) st).outcome = .invalidEnvironment ∨
         (rollbackMain (e :: c :: rest) st).outcome = .invalidCount)) := by
  constructor
  · intro e st
    rfl
  · intro e c rest st hne hc
    cases he : envMatch e <;> simp [rollbackMain, he, hne, hc]

/-- C8 witness: rollback of beta with no count equals rollback with count
1, and the counts 0 and x3 are rejected with exit 1 and an empty trace. -/
theorem rollback_count_validation_witness :
    rollbackMain ["beta"] ⟨false, [], ["c0"], "y", false, true, true⟩
        = rollbackMain ["beta", "1"] ⟨false, [], ["c0"], "y", false, true, true⟩ ∧
    ((rollbackMain ["beta", "0"] ⟨false, [], ["c0"], "y", false, true, true⟩).exitCode = 1 ∧
     (rollbackMain ["beta", "0"] ⟨false, [], ["c0"], "y", false, true, true⟩).trace = [] ∧
     ((rollbackMain ["beta", "0"] ⟨false, [], ["c0"], "y", false, true, true⟩).outcome
          = .invalidEnvironment ∨
      (rollbackMain ["beta", "0"] ⟨false, [], ["c0"], "y", false, true, true⟩).outcome
          = .invalidCount)) ∧
    ((rollbackMain ["beta", "x3"] ⟨false, [], ["c0"], "y", false, true, true⟩).exitCode = 1 ∧
     (rollbackMain ["beta", "x3"] ⟨false, [], ["c0"], "y", false, true, true⟩).trace = [] ∧
     ((rollbackMain ["beta", "x3"] ⟨false, [], ["c0"], "y", false, true, true⟩).outcome
          = .invalidEnvironment ∨
      (rollbackMain ["beta", "x3"] ⟨false, [], ["c0"], "y", false, true, true⟩).outcome
          = .invalidCount)) :=
  ⟨rollback_count_validation.1 "beta" _,
   rollback_count_validation.2 "beta" "0" [] _ (by decide) (by decide),
   rollback_count_validation.2 "beta" "x3" [] _ (by decide) (by decide)⟩

/-- C9 counterexample: when the target branch is absent locally, promote.sh
checks it out while creating it from the remote before any prompt, so a
declined confirmation (exit 0) can still leave a run in which the target
branch was checked out. -/
theorem prompt_decline_target_checkout_counterexample :
    (promoteRun "beta" "gamma" ⟨false, ["beta"], 1, "n", "n", true, true⟩).outcome
        = .cancelled ∧
    (promoteRun "beta" "gamma" ⟨false, ["beta"], 1, "n", "n", true, true⟩).exitCode = 0 ∧
    Op.git (.checkoutNew "gamma") ∈
      (promoteRun "beta" "gamma" ⟨false, ["beta"], 1, "n", "n", true, true⟩).trace := by
  decide

/-- C9 amended: answering anything other than y or Y at the zero-commit
prompt or at the final confirmation ends promote.sh with exit status 0, and
at that point the target has not been merged into or pushed, and the
checkout of the target that precedes the merge has not run; nothing after
the prompt mutates the repository.  However, when the target branch was
absent locally it has already been checked out once while being created
from origin, so the target is guaranteed never to have been checked out
only when it already existed locally. -/
theorem prompt_decline_frame (s t : String) (st : PromoteState)
    (hs : s ∈ VALID_BRANCHES) (ht : t ∈ VALID_BRANCHES) (hst : s ≠ t)
    (hd : st.dirty = false)
    (hdecl : (st.commitCount = 0 ∧ isYes st.zeroReply = false) ∨
             isYes st.confirmReply = false) :
    (promoteRun s t st).exitCode = 0 ∧
    ((promoteRun s t st).outcome = .cancelledZero ∨
     (promoteRun s t st).outcome = .cancelled) ∧
    Op.git (.merge s t) ∉ (promoteRun s t st).trace ∧
    Op.git (.push t) ∉ (promoteRun s t st).trace ∧
    Op.git (.checkout t) ∉ (promoteRun s t st).trace := by
  have hs1 : branchMatch s = true := mem_valid_branchMatch hs
  have ht1 : branchMatch t = true := mem_valid_branchMatch ht
  rcases hdecl with ⟨hcc, hz⟩ | hcf
  · simp [promoteRun, hs1, ht1, hst, hd, hcc, hz, hst.symm]
  · by_cases hz0 : st.commitCount = 0 ∧ isYes st.zeroReply = false
    · simp [promoteRun, hs1, ht1, hst, hd, hz0.1, hz0.2, hst.symm]
    · by_cases hcc0 : st.commitCount = 0
      · have hz1 : isYes st.zeroReply = true := by
          cases h : isYes st.zeroReply
          · exact absurd ⟨hcc0, h⟩ hz0
          · rfl
        simp [promoteRun, hs1, ht1, hst, hd, hcc0, hz1, hcf, hst.symm]
      · simp [promoteRun, hs1, ht1, hst, hd, hcc0, hcf, hst.symm]

/-- C9 amended witness: declining the final confirmation of a beta-to-gamma
promotion with both branches local exits 0 with no merge, push, or
pre-merge checkout of the target in the trace. -/
theorem prompt_decline_frame_witness :
    (promoteRun "beta" "gamma" ⟨false, ["beta", "gamma"], 1, "n", "n", true, true⟩).exitCode
        = 0 ∧
    ((promoteRun "beta" "gamma" ⟨false, ["beta", "gamma"], 1, "n", "n", true, true⟩).outcome
        = .cancelledZero ∨
     (promoteRun "beta" "gamma" ⟨false, ["beta", "gamma"], 1, "n", "n", true, true⟩).outcome
        = .cancelled) ∧
    Op.git (.merge "beta" "gamma") ∉
      (promoteRun "beta" "gamma" ⟨false, ["beta", "gamma"], 1, "n", "n", true, true⟩).trace ∧
    Op.git (.push "gamma") ∉
      (promoteRun "beta" "gamma" ⟨false, ["beta", "gamma"], 1, "n", "n", true, true⟩).trace ∧
    Op.git (.checkout "gamma") ∉
      (promoteRun "beta" "gamma" ⟨false, ["beta", "gamma"], 1, "n", "n", true, true⟩).trace :=
  prompt_decline_frame "beta" "gamma" _ (by decide) (by decide) (by decide) rfl
    (Or.inr (by decide))

/-- C10: whenever the render CLI is missing, or RENDER_API_KEY is unset and
the continue prompt is answered y, deploy.sh finishes with SKIP_RENDER set
to true and no Render operation in its trace, while the Vercel deploy still
runs; and provided the Vercel deploy produced a URL, the script exits with
status 0 at the completion site.  The Vercel-side hypotheses (CLI installed
and authentication available) keep the run from exiting at an earlier
Vercel failure site. -/
theorem deploy_skip_render_keeps_vercel (st : DeployState) (b : String)
    (hb : st.branch = some b) (hv : st.vercelInstalled = true)
    (hauth : st.vercelTokenSet = true ∨ st.vercelLoggedIn = true ∨
             st.vercelLoginOk = true)
    (hskip : st.renderInstalled = false ∨
             (st.renderApiKeySet = false ∧ isYes st.continueReply = true)) :
    (deployRun st).skipRender = true ∧
    DeployOp.vercelDeploy ∈ (deployRun st).trace ∧
    DeployOp.renderServicesList ∉ (deployRun st).trace ∧
    DeployOp.renderDeploysCreate ∉ (deployRun st).trace ∧
    (st.vercelUrl ≠ "" →
      (deployRun st).exitCode = 0 ∧ (deployRun st).outcome = .completed) := by
  have hloginCond : ¬(st.vercelTokenSet = false ∧ st.vercelLoggedIn = false ∧
      st.vercelLoginOk = false) := by
    rcases hauth with h | h | h <;> simp [h]
  have habort : ¬(st.renderInstalled = true ∧ st.renderApiKeySet = false ∧
      isYes st.continueReply = false) := by
    rcases hskip with h | ⟨h1, h2⟩
    · simp [h]
    · simp [h2]
  have hsk : (!st.renderInstalled || !st.renderApiKeySet) = true := by
    rcases hskip with h | ⟨h1, h2⟩
    · simp [h]
    · simp [h1]
  by_cases hurl : st.vercelUrl = "" <;>
    cases htok : st.vercelTokenSet <;> cases hlog : st.vercelLoggedIn <;>
      cases hok : st.vercelLoginOk <;>
        first
        | (simp [deployRun, hb, hv, htok, hlog, hok, hurl, habort, hsk]; done)
        | exact absurd (And.intro htok (And.intro hlog hok)) hloginCond

/-- C10 witness: with the render CLI missing and a working Vercel setup,
deploy.sh skips Render entirely, deploys to Vercel, and exits 0. -/
theorem deploy_skip_render_keeps_vercel_witness :
    (deployRun ⟨some "beta", true, false, true, true, true, false, "n",
        "https://cicd.example", "", true⟩).skipRender = true ∧
    DeployOp.vercelDeploy ∈ (deployRun ⟨some "beta", true, false, true, true, true, false, "n",
        "https://cicd.example", "", true⟩).trace ∧
    DeployOp.renderServicesList ∉ (deployRun ⟨some "beta", true, false, true, true, true, false, "n",
        "https://cicd.example", "", true⟩).trace ∧
    DeployOp.renderDeploysCreate ∉ (deployRun ⟨some "beta", true, false, true, true, true, false, "n",
        "https://cicd.example", "", true⟩).trace ∧
    ("https://cicd.example" ≠ "" →
      (deployRun ⟨some "beta", true, false, true, true, true, false, "n",
        "https://cicd.example", "", true⟩).exitCode = 0 ∧
      (deployRun ⟨some "beta", true, false, true, true, true, false, "n",
        "https://cicd.example", "", true⟩).outcome = .completed) :=
  deploy_skip_render_keeps_vercel _ "beta" rfl rfl (Or.inl rfl) (Or.inl rfl)

end CicdDemo
